import Mathlib

/-!
Verification of the documentation-scraper pipeline in
`scripts/scrape_docs.py` (class `ClaudeCodeDocsScraper` and `main`).

The Python program is a single sequential pipeline
(fetch → clean → extract → convert → annotate → write).  We embed it
shallowly: third-party effectful calls (the HTTP client, the
BeautifulSoup parse/clean/select operations, the `markdownify`
converter, the filesystem) become oracle functions collected in an
`Env`; the control flow owned by the repository — retry loop, selector
iteration, annotation order, per-section try/except boundaries, the
driver `scrape_all` and the exit codes of `main` — is translated
definition-by-definition from the source.
-/

namespace ScrapeDocs

/-- A wall-clock timestamp broken into calendar fields, the inputs of
the Python `strftime("%Y-%m-%d %H:%M:%S UTC")`. -/
structure DateTime where
  year : Nat
  month : Nat
  day : Nat
  hour : Nat
  minute : Nat
  second : Nat
deriving DecidableEq, Repr

/-- Zero-pad to two digits, as `%m %d %H %M %S` do. -/
def pad2 (n : Nat) : String :=
  if n < 10 then "0" ++ toString n else toString n

/-- Zero-pad to four digits, as `%Y` does. -/
def pad4 (n : Nat) : String :=
  if n < 10 then "000" ++ toString n
  else if n < 100 then "00" ++ toString n
  else if n < 1000 then "0" ++ toString n
  else toString n

/-- `strftime("%Y-%m-%d %H:%M:%S UTC")`: the timestamp format used both
for the per-section annotation (`_convert_to_markdown`) and the index
header (`create_index`).  Note the string " UTC" is a literal in the
format, independent of which clock supplied `t`. -/
def strftime_ts (t : DateTime) : String :=
  pad4 t.year ++ "-" ++ pad2 t.month ++ "-" ++ pad2 t.day ++ " " ++
    pad2 t.hour ++ ":" ++ pad2 t.minute ++ ":" ++ pad2 t.second ++ " UTC"

/-- The process clock.  the Python `datetime.now()` call reads the LOCAL wall
clock, `datetime.utcnow()` the UTC wall clock; in an environment whose
local timezone is not UTC the two differ.  The source calls only
`datetime.now()`, so the embedding of the code uses only `now`;
`utcnow` is carried to state what a UTC timestamp would have been. -/
structure Clock where
  now : DateTime
  utcnow : DateTime
deriving DecidableEq, Repr

/-- One entry of `config["sections"]`. -/
structure DocSection where
  name : String
  url_suffix : String
  filename : String
  description : String
deriving DecidableEq, Repr

/-- `config["scraping"]`. -/
structure ScrapingConfig where
  user_agent : String
  timeout : Nat
  retries : Nat
  delay_between_requests : Nat
  remove_elements : List String
  content_selectors : List String
deriving DecidableEq, Repr

/-- `config["output"]`.  The three booleans model
`output_config.get("add_section_headers", True)` etc.; the loaded
configuration supplies them explicitly. -/
structure OutputConfig where
  docs_folder : String
  index_file : String
  add_section_headers : Bool
  add_source_url : Bool
  add_timestamp : Bool
deriving DecidableEq, Repr

/-- The loaded configuration (logging settings are irrelevant to every
claim and omitted). -/
structure Config where
  base_url : String
  scraping : ScrapingConfig
  output : OutputConfig
  sections : List DocSection
deriving DecidableEq, Repr

/-! ## Fetcher: `_make_request` -/

/-- Observable events of one `_make_request` call: an HTTP attempt
(with its 0-based index) or a `time.sleep(delay)`. -/
inductive FetchEv where
  | attempt (i : Nat)
  | sleep (d : Nat)
deriving DecidableEq, Repr

/-- `FetchEv.attempt` discriminator. -/
def FetchEv.isAttempt : FetchEv → Bool
  | .attempt _ => true
  | .sleep _ => false

/-- `FetchEv.sleep` discriminator. -/
def FetchEv.isSleep : FetchEv → Bool
  | .attempt _ => false
  | .sleep _ => true

/-- The trace of one `_make_request` call: its events in order, and the
returned value (`some body` for a 2xx response, `none` for the `return
None` path — the function never lets an exception escape). -/
structure RequestTrace where
  events : List FetchEv
  result : Option String
deriving DecidableEq, Repr

/-- Loop body of the `_make_request` loop `for attempt in range(retries + 1)`.
`oracle i` is the outcome of the i-th `session.get` (`some body` when
the request succeeds and `raise_for_status` passes, `none` when a
`RequestException` is raised).  `remaining` counts the loop iterations
left; the initial call passes `retries + 1`, so the `0` case is the
fall-through `return None` after the loop, unreachable in fact. -/
def make_request_go (oracle : Nat → Option String) (delay retries : Nat) :
    Nat → Nat → RequestTrace
  | 0, _ => ⟨[], none⟩
  | remaining + 1, attempt =>
    match oracle attempt with
    | some r => ⟨[.attempt attempt], some r⟩
    | none =>
      if attempt = retries then ⟨[.attempt attempt], none⟩
      else
        let rest := make_request_go oracle delay retries remaining (attempt + 1)
        ⟨.attempt attempt :: .sleep delay :: rest.events, rest.result⟩

/-- `_make_request(url, retries)`: attempt the request up to
`retries + 1` times; on failure with attempts remaining, sleep
`delay_between_requests` and retry; on the last failure return `None`. -/
def make_request (oracle : Nat → Option String) (delay retries : Nat) : RequestTrace :=
  make_request_go oracle delay retries (retries + 1) 0

/-- The event sequence `attempt start, sleep, attempt start+1, sleep, …`
of `len` failed non-final attempts. -/
def failEvents (delay : Nat) : Nat → Nat → List FetchEv
  | _, 0 => []
  | start, len + 1 => .attempt start :: .sleep delay :: failEvents delay (start + 1) len

/-! ## Content extractor: `_extract_content` -/

/-- `soup.select_one(selector)`: the first element matching `selector`,
where `select doc sel` lists all matches in document order. -/
def select_one (select : String → List String) (sel : String) : Option String :=
  (select sel).head?

/-- `_extract_content`: iterate the configured `content_selectors` in
order and return the first match of the first hitting selector; `none` when no
selector matches (the `return None` after the loop). -/
def _extract_content (select : String → List String) : List String → Option String
  | [] => none
  | sel :: rest =>
    match select_one select sel with
    | some content => some content
    | none => _extract_content select rest

/-! ## Markdown renderer: `_convert_to_markdown` -/

/-- The annotation tail of `_convert_to_markdown`, applied to the
result `markdown0` of the `markdownify` call `md(html_content)`: the
three `if output_config.get(...)` blocks in source order.  The
timestamp uses `clock.now` because the source calls `datetime.now()`
(the local clock), then formats it with the literal " UTC" suffix. -/
def annotate (config : Config) (clock : Clock) (markdown0 : String) (s : DocSection) : String :=
  let markdown :=
    if config.output.add_section_headers then
      "# " ++ s.description ++ "\n\n" ++ markdown0
    else markdown0
  let markdown :=
    if config.output.add_source_url then
      markdown ++ "\n\n---\n\n*Source: " ++ (config.base_url ++ s.url_suffix) ++ "*\n"
    else markdown
  let markdown :=
    if config.output.add_timestamp then
      markdown ++ "*Last updated: " ++ strftime_ts clock.now ++ "*\n"
    else markdown
  markdown

/-- `_convert_to_markdown(html_content, section)` with the
`markdownify` converter passed as the function `md`. -/
def _convert_to_markdown (md : String → String) (config : Config) (clock : Clock)
    (html_content : String) (s : DocSection) : String :=
  annotate config clock (md html_content) s

/-- The annotation tail without the timestamp block: header and source
note only.  Used to state which part of the output is independent of
the clock. -/
def annotate_body (config : Config) (markdown0 : String) (s : DocSection) : String :=
  let markdown :=
    if config.output.add_section_headers then
      "# " ++ s.description ++ "\n\n" ++ markdown0
    else markdown0
  if config.output.add_source_url then
    markdown ++ "\n\n---\n\n*Source: " ++ (config.base_url ++ s.url_suffix) ++ "*\n"
  else markdown

/-- The timestamp note appended by the third annotation block ("" when
`add_timestamp` is off). -/
def timestamp_note (config : Config) (clock : Clock) : String :=
  if config.output.add_timestamp then
    "*Last updated: " ++ strftime_ts clock.now ++ "*\n"
  else ""

/-! ## Persister: the filesystem model -/

/-- A filesystem: each path holds the content of a file or nothing. -/
def FS : Type := String → Option String

/-- Point update of a filesystem. -/
def fsWrite (fs : FS) (path content : String) : FS :=
  fun q => if q = path then some content else fs q

/-- Outcome of one `with open(path, "w") as f: f.write(s)`:
`success`; `openError` — `open` itself raises (e.g. permission denied),
the path is untouched; `writeError k` — `open` succeeded (truncating
the file, per the Python "w" open mode) and the write failed after `k`
characters, leaving that prefix on disk. -/
inductive WriteOutcome where
  | success
  | openError
  | writeError (k : Nat)
deriving DecidableEq, Repr

/-- Apply a write with the given outcome: the resulting filesystem and
whether the write succeeded (`false` = the Python code raised). -/
def applyWrite (fs : FS) (path content : String) : WriteOutcome → FS × Bool
  | .success => (fsWrite fs path content, true)
  | .openError => (fs, false)
  | .writeError k => (fsWrite fs path (content.take k), false)

/-! ## Run statistics -/

/-- `self.stats` (the `start_time` field only feeds the reported
duration, which no claim concerns). -/
structure Stats where
  total_sections : Nat
  successful_scrapes : Nat
  failed_scrapes : Nat
deriving DecidableEq, Repr

/-- `_print_statistics`: the success-rate line divides
`successful_scrapes / total_sections`, which in Python raises
`ZeroDivisionError` exactly when `total_sections == 0`.  We return
`none` in that case and otherwise the rate in tenths of a percent
(an integer stand-in for the reported float). -/
def _print_statistics (st : Stats) : Option Nat :=
  if st.total_sections = 0 then none
  else some (st.successful_scrapes * 1000 / st.total_sections)

/-! ## The effect environment -/

/-- Oracles for the third-party effectful calls one run makes.
`http url i` is the outcome of the i-th attempt of `session.get(url)`;
`clean page` is the document after `BeautifulSoup(...)` parsing and
the `decompose` loop of `_clean_html`; `select doc sel` lists the elements
of `doc` matching `sel` in document order; `md frag` is the
`markdownify` result (`none` = the converter raised, the case caught
by the try/except in `scrape_section`); `writeOutcome path` is how the
filesystem treats a write to `path` during this run. -/
structure Env where
  http : String → Nat → Option String
  clean : String → String
  select : String → String → List String
  md : String → Option String
  writeOutcome : String → WriteOutcome

/-- The URL `base_url + section["url_suffix"]` fetched for a section. -/
def section_url (config : Config) (s : DocSection) : String :=
  config.base_url ++ s.url_suffix

/-- The output path `docs_dir / section["filename"]`. -/
def section_path (config : Config) (s : DocSection) : String :=
  config.output.docs_folder ++ "/" ++ s.filename

/-- The index path `docs_dir / config["output"]["index_file"]`. -/
def index_path (config : Config) : String :=
  config.output.docs_folder ++ "/" ++ config.output.index_file

/-! ## `scrape_section` -/

/-- `scrape_section(section)`: fetch, clean, extract, convert, write.
Returns the boolean result together with the updated statistics and
filesystem.  Each failure path increments `failed_scrapes` and returns
`False`; the success path increments `successful_scrapes`. -/
def scrape_section (env : Env) (config : Config) (clock : Clock)
    (st : Stats) (fs : FS) (s : DocSection) : Bool × Stats × FS :=
  let url := config.base_url ++ s.url_suffix
  match (make_request (env.http url) config.scraping.delay_between_requests
      config.scraping.retries).result with
  | none => (false, { st with failed_scrapes := st.failed_scrapes + 1 }, fs)
  | some page =>
    let soup := env.clean page
    match _extract_content (env.select soup) config.scraping.content_selectors with
    | none => (false, { st with failed_scrapes := st.failed_scrapes + 1 }, fs)
    | some content =>
      match env.md content with
      | none => (false, { st with failed_scrapes := st.failed_scrapes + 1 }, fs)
      | some m =>
        let markdown := annotate config clock m s
        let output_file := config.output.docs_folder ++ "/" ++ s.filename
        let w := applyWrite fs output_file markdown (env.writeOutcome output_file)
        if w.2 then
          (true, { st with successful_scrapes := st.successful_scrapes + 1 }, w.1)
        else
          (false, { st with failed_scrapes := st.failed_scrapes + 1 }, w.1)

/-- The raw `markdownify` output the processing of a section reaches
(`none` when fetch, extraction or conversion fails). -/
def section_md_raw (env : Env) (config : Config) (s : DocSection) : Option String :=
  match (make_request (env.http (section_url config s))
      config.scraping.delay_between_requests config.scraping.retries).result with
  | none => none
  | some page =>
    match _extract_content (env.select (env.clean page))
        config.scraping.content_selectors with
    | none => none
    | some content => env.md content

/-- The annotated Markdown the processing of a section would write
(`none` when any pre-write stage fails). -/
def sectionMarkdown (env : Env) (config : Config) (clock : Clock) (s : DocSection) :
    Option String :=
  (section_md_raw env config s).map (fun m => annotate config clock m s)

/-- The clock-independent part of `sectionMarkdown`: everything but the
timestamp note. -/
def sectionBody (env : Env) (config : Config) (s : DocSection) : Option String :=
  (section_md_raw env config s).map (fun m => annotate_body config m s)

/-! ## `create_index` -/

/-- The fixed lines `create_index` puts before the per-section bullets:
title, generation timestamp (again `datetime.now()` formatted with a
literal " UTC"), and the section-list heading. -/
def index_header_lines (clock : Clock) : List String :=
  ["# Claude Code Documentation Index",
   "",
   "*Auto-generated documentation index*",
   "",
   "Last updated: " ++ strftime_ts clock.now,
   "",
   "## Available Documentation Sections",
   ""]

/-- The static usage note and footer `create_index` appends after the
bullets (the `index_content.extend([...])` literal). -/
def index_footer_lines : List String :=
  ["",
   "## Usage",
   "",
   "This documentation is scraped automatically from the official Claude Code documentation.",
   "Use these files for offline reference or with Claude Code\x27s \x60/DOC\x60 command workflow.",
   "",
   "---",
   "",
   "*Generated by Claude Code Documentation Auto-Updater*"]

/-- The `index_content` list built by `create_index`: header lines,
then one bullet per configured section in declaration order, then the
footer lines. -/
def index_lines (config : Config) (clock : Clock) : List String :=
  index_header_lines clock
    ++ config.sections.map
        (fun s => "- **[" ++ s.name ++ "](" ++ s.filename ++ ")** - " ++ s.description)
    ++ index_footer_lines

/-- The content of the index file: `"\n".join(index_content)`. -/
def create_index_content (config : Config) (clock : Clock) : String :=
  String.intercalate "\n" (index_lines config clock)

/-! ## Driver: `scrape_all` and `main` -/

/-- Python truthiness of the `section_filter` argument: `None` and the
empty string are falsy. -/
def truthy : Option String → Bool
  | none => false
  | some s => !s.isEmpty

/-- The sections a run processes: all of `config["sections"]`, or —
under a truthy `--section` filter — those whose `name` equals it
(the list comprehension in `scrape_all`). -/
def selected_sections (config : Config) (section_filter : Option String) : List DocSection :=
  if truthy section_filter then
    config.sections.filter (fun s => s.name == section_filter.getD "")
  else
    config.sections

/-- The per-section loop of `scrape_all`: run `scrape_section` on each
section in order, threading statistics and filesystem.  (The
`time.sleep` between sections affects no claim and is not recorded.) -/
def scrape_sections (env : Env) (config : Config) (clock : Clock) :
    List DocSection → Stats → FS → Stats × FS
  | [], st, fs => (st, fs)
  | s :: rest, st, fs =>
    let r := scrape_section env config clock st fs s
    scrape_sections env config clock rest r.2.1 r.2.2

/-- How a `scrape_all` call ends.  `completed`: normal return after the
statistics block.  `sectionNotFound`: the early `return` when a truthy
filter matches no configured section.  `indexWriteError`: the unguarded
`create_index` write raised, aborting `scrape_all` before the
statistics.  `statsDivisionByZero`: `_print_statistics` raised
`ZeroDivisionError` on `total_sections == 0`. -/
inductive RunStatus where
  | completed
  | sectionNotFound
  | indexWriteError
  | statsDivisionByZero
deriving DecidableEq, Repr

/-- The observable outcome of one `scrape_all` call: how it ended, the
final `self.stats`, the final filesystem, and whether `create_index`
completed a write of the index file. -/
structure RunResult where
  status : RunStatus
  stats : Stats
  fs : FS
  indexWritten : Bool

/-- `scrape_all(section_filter)`: select the sections, early-return if
a truthy filter matches none, set `total_sections`, loop, then — on
full runs only — `create_index` (whose write is NOT wrapped in
try/except: a failure there propagates), then `_print_statistics`. -/
def scrape_all (env : Env) (config : Config) (clock : Clock) (fs0 : FS)
    (section_filter : Option String) : RunResult :=
  let st0 : Stats := { total_sections := 0, successful_scrapes := 0, failed_scrapes := 0 }
  let sections := selected_sections config section_filter
  if truthy section_filter && sections.isEmpty then
    { status := .sectionNotFound, stats := st0, fs := fs0, indexWritten := false }
  else
    let st1 := { st0 with total_sections := sections.length }
    let r := scrape_sections env config clock sections st1 fs0
    if truthy section_filter then
      match _print_statistics r.1 with
      | none => { status := .statsDivisionByZero, stats := r.1, fs := r.2, indexWritten := false }
      | some _ => { status := .completed, stats := r.1, fs := r.2, indexWritten := false }
    else
      let w := applyWrite r.2 (index_path config) (create_index_content config clock)
        (env.writeOutcome (index_path config))
      if w.2 then
        match _print_statistics r.1 with
        | none => { status := .statsDivisionByZero, stats := r.1, fs := w.1, indexWritten := true }
        | some _ => { status := .completed, stats := r.1, fs := w.1, indexWritten := true }
      else
        { status := .indexWriteError, stats := r.1, fs := w.1, indexWritten := false }

/-- How `_load_config` ended: the YAML parsed, the file was missing
(`sys.exit(1)`), or parsing raised `yaml.YAMLError` (`sys.exit(1)`). -/
inductive ConfigLoad where
  | ok (config : Config)
  | fileNotFound
  | yamlError

/-- The process exit code `main` produces from a finished `scrape_all`:
normal returns (including the unknown-section early return) fall off
`main` with exit code 0; an exception escaping `scrape_all` is caught by
the `except Exception` handler in `main`, which prints and calls `sys.exit(1)`. -/
def run_exit_code (r : RunResult) : Nat :=
  match r.status with
  | .completed => 0
  | .sectionNotFound => 0
  | .indexWriteError => 1
  | .statsDivisionByZero => 1

/-- The exit code of `main`: `_load_config` calls `sys.exit(1)` on a missing
or unparseable configuration file; otherwise the exit code of the run.
(`KeyboardInterrupt`, also exit 1, is outside this model.) -/
def main_run (load : ConfigLoad) (env : Env) (clock : Clock) (fs0 : FS)
    (section_filter : Option String) : Nat :=
  match load with
  | .fileNotFound => 1
  | .yamlError => 1
  | .ok config => run_exit_code (scrape_all env config clock fs0 section_filter)

/-! ## Concrete fixtures for witnesses and counterexamples -/

/-- A one-section configuration with every annotation flag on. -/
def cfgW : Config :=
  { base_url := "https://docs.example.com"
    scraping :=
      { user_agent := "UA", timeout := 30, retries := 3, delay_between_requests := 2
        remove_elements := ["nav"], content_selectors := [".missing", ".real"] }
    output :=
      { docs_folder := "docs", index_file := "README.md"
        add_section_headers := true, add_source_url := true, add_timestamp := true }
    sections := [{ name := "overview", url_suffix := "/overview"
                   filename := "overview.md", description := "Overview" }] }

/-- The same configuration with every annotation flag off. -/
def cfgPlain : Config :=
  { cfgW with output := { cfgW.output with
      add_section_headers := false, add_source_url := false, add_timestamp := false } }

/-- `cfgW` with an empty section list. -/
def cfgEmpty : Config := { cfgW with sections := [] }

/-- The configured section of `cfgW`. -/
def secW : DocSection :=
  { name := "overview", url_suffix := "/overview"
    filename := "overview.md", description := "Overview" }

/-- A clock whose local time is two hours ahead of UTC. -/
def clockW : Clock :=
  { now := ⟨2024, 6, 1, 12, 0, 0⟩, utcnow := ⟨2024, 6, 1, 10, 0, 0⟩ }

/-- A second clock, for the two-run comparison. -/
def clockW2 : Clock :=
  { now := ⟨2025, 1, 2, 3, 4, 5⟩, utcnow := ⟨2025, 1, 2, 1, 4, 5⟩ }

/-- An empty filesystem. -/
def fs0W : FS := fun _ => none

/-- A statistics value mid-run. -/
def stW : Stats := { total_sections := 1, successful_scrapes := 0, failed_scrapes := 0 }

/-- An environment in which every stage succeeds: the fetch returns a
page, `.real` matches one element, `markdownify` yields `"BODY\n"`, and
every write succeeds. -/
def envW : Env :=
  { http := fun _ _ => some "<nav>n</nav><main class=\x22real\x22><h1>Hi</h1></main>"
    clean := fun _ => "<main class=\x22real\x22><h1>Hi</h1></main>"
    select := fun _ sel => if sel == ".real" then ["<main class=\x22real\x22><h1>Hi</h1></main>"] else []
    md := fun _ => some "BODY\n"
    writeOutcome := fun _ => .success }

/-- `envW`, except that writing the index file fails at `open`. -/
def envC7 : Env :=
  { envW with writeOutcome := fun p => if p == "docs/README.md" then .openError else .success }

/-- `envW`, except that every write fails at `open`. -/
def envOpenFail : Env :=
  { envW with writeOutcome := fun _ => .openError }

/-- `envW`, except that every write fails after 3 characters. -/
def envC8 : Env :=
  { envW with writeOutcome := fun _ => .writeError 3 }

/-- A filesystem with a stale file at the output path of `secW`. -/
def fsOld : FS := fun p => if p == "docs/overview.md" then some "OLD" else none

/-! ## Helper lemmas -/

lemma failEvents_filter_isAttempt (delay : Nat) :
    ∀ len start, ((failEvents delay start len).filter FetchEv.isAttempt).length = len := by
  intro len
  induction len with
  | zero => intro start; simp [failEvents]
  | succ n ih =>
    intro start
    simp [failEvents, List.filter, FetchEv.isAttempt, FetchEv.isSleep, ih]

lemma failEvents_filter_isSleep (delay : Nat) :
    ∀ len start,
      (failEvents delay start len).filter FetchEv.isSleep
        = List.replicate len (.sleep delay) := by
  intro len
  induction len with
  | zero => intro start; simp [failEvents]
  | succ n ih =>
    intro start
    simp [failEvents, List.filter, FetchEv.isAttempt, FetchEv.isSleep, ih,
      List.replicate_succ]

lemma make_request_go_all_fail (oracle : Nat → Option String) (delay retries : Nat)
    (h : ∀ i, oracle i = none) :
    ∀ remaining attempt, attempt + remaining = retries →
      make_request_go oracle delay retries (remaining + 1) attempt =
        ⟨failEvents delay attempt remaining ++ [.attempt retries], none⟩ := by
  intro remaining
  induction remaining with
  | zero =>
    intro attempt h'
    have ha : attempt = retries := by omega
    subst ha
    simp [make_request_go, h, failEvents]
  | succ n ih =>
    intro attempt h'
    have hne : ¬ attempt = retries := by omega
    have hrest := ih (attempt + 1) (by omega)
    rw [make_request_go.eq_2]
    simp only [h]
    rw [if_neg hne, hrest]
    simp [failEvents]

lemma make_request_all_fail_eq (oracle : Nat → Option String) (delay retries : Nat)
    (h : ∀ i, oracle i = none) :
    make_request oracle delay retries =
      ⟨failEvents delay 0 retries ++ [.attempt retries], none⟩ :=
  make_request_go_all_fail oracle delay retries h retries 0 (by omega)

lemma extract_content_none_iff (select : String → List String) :
    ∀ sels, _extract_content select sels = none ↔ ∀ t ∈ sels, select t = [] := by
  intro sels
  induction sels with
  | nil => simp [_extract_content]
  | cons sel rest ih =>
    cases hsel : select sel with
    | nil =>
      simp [_extract_content, select_one, hsel, ih]
    | cons x xs =>
      simp [_extract_content, select_one, hsel]

lemma extract_content_skip (select : String → List String) :
    ∀ pre rest, (∀ t ∈ pre, select t = []) →
      _extract_content select (pre ++ rest) = _extract_content select rest := by
  intro pre
  induction pre with
  | nil => intro rest _; simp
  | cons p ps ih =>
    intro rest hpre
    have hp : select p = [] := hpre p (by simp)
    simp only [List.cons_append, _extract_content, select_one, hp, List.head?_nil]
    exact ih rest (fun t ht => hpre t (by simp [ht]))

lemma annotate_eq_body_append (config : Config) (clock : Clock) (m : String)
    (s : DocSection) :
    annotate config clock m s = annotate_body config m s ++ timestamp_note config clock := by
  unfold annotate annotate_body timestamp_note
  cases config.output.add_timestamp <;> simp [String.append_empty, String.append_assoc]

lemma scrape_section_eq (env : Env) (config : Config) (clock : Clock)
    (st : Stats) (fs : FS) (s : DocSection) :
    scrape_section env config clock st fs s =
      match sectionMarkdown env config clock s with
      | none => (false, { st with failed_scrapes := st.failed_scrapes + 1 }, fs)
      | some m =>
        match env.writeOutcome (section_path config s) with
        | .success =>
          (true, { st with successful_scrapes := st.successful_scrapes + 1 },
            fsWrite fs (section_path config s) m)
        | .openError =>
          (false, { st with failed_scrapes := st.failed_scrapes + 1 }, fs)
        | .writeError k =>
          (false, { st with failed_scrapes := st.failed_scrapes + 1 },
            fsWrite fs (section_path config s) (m.take k)) := by
  simp only [scrape_section, sectionMarkdown, section_md_raw, section_url, section_path]
  cases hreq : (make_request (env.http (config.base_url ++ s.url_suffix))
      config.scraping.delay_between_requests config.scraping.retries).result with
  | none => rfl
  | some page =>
    dsimp only
    cases hext : _extract_content (env.select (env.clean page))
        config.scraping.content_selectors with
    | none => rfl
    | some content =>
      dsimp only
      cases hmd : env.md content with
      | none => rfl
      | some m =>
        dsimp only
        cases hwr : env.writeOutcome (config.output.docs_folder ++ "/" ++ s.filename) with
        | success => simp [applyWrite]
        | openError => simp [applyWrite]
        | writeError k => simp [applyWrite]

lemma scrape_section_stats (env : Env) (config : Config) (clock : Clock)
    (st : Stats) (fs : FS) (s : DocSection) :
    (scrape_section env config clock st fs s).2.1.successful_scrapes
        + (scrape_section env config clock st fs s).2.1.failed_scrapes
      = st.successful_scrapes + st.failed_scrapes + 1
    ∧ (scrape_section env config clock st fs s).2.1.total_sections = st.total_sections := by
  rw [scrape_section_eq]
  cases sectionMarkdown env config clock s with
  | none => simp; omega
  | some m =>
    cases env.writeOutcome (section_path config s) with
    | success => simp; omega
    | openError => simp; omega
    | writeError k => simp; omega

lemma scrape_sections_stats (env : Env) (config : Config) (clock : Clock) :
    ∀ (ss : List DocSection) (st : Stats) (fs : FS),
      (scrape_sections env config clock ss st fs).1.successful_scrapes
          + (scrape_sections env config clock ss st fs).1.failed_scrapes
        = st.successful_scrapes + st.failed_scrapes + ss.length
      ∧ (scrape_sections env config clock ss st fs).1.total_sections
        = st.total_sections := by
  intro ss
  induction ss with
  | nil => intro st fs; simp [scrape_sections]
  | cons s rest ih =>
    intro st fs
    obtain ⟨hstep1, hstep2⟩ := scrape_section_stats env config clock st fs s
    obtain ⟨hrest1, hrest2⟩ := ih (scrape_section env config clock st fs s).2.1
      (scrape_section env config clock st fs s).2.2
    simp only [scrape_sections, List.length_cons]
    constructor
    · omega
    · rw [hrest2, hstep2]

lemma scrape_all_stats_eq (env : Env) (config : Config) (clock : Clock) (fs0 : FS)
    (sf : Option String)
    (h : ¬ (truthy sf && (selected_sections config sf).isEmpty) = true) :
    (scrape_all env config clock fs0 sf).stats =
      (scrape_sections env config clock (selected_sections config sf)
        { total_sections := (selected_sections config sf).length,
          successful_scrapes := 0, failed_scrapes := 0 } fs0).1 := by
  unfold scrape_all
  rw [if_neg h]
  by_cases ht : truthy sf = true
  · rw [if_pos ht]
    cases _print_statistics (scrape_sections env config clock
        (selected_sections config sf)
        { total_sections := (selected_sections config sf).length,
          successful_scrapes := 0, failed_scrapes := 0 } fs0).1 <;> rfl
  · rw [if_neg ht]
    by_cases hwr : (applyWrite (scrape_sections env config clock
        (selected_sections config sf)
        { total_sections := (selected_sections config sf).length,
          successful_scrapes := 0, failed_scrapes := 0 } fs0).2
        (index_path config) (create_index_content config clock)
        (env.writeOutcome (index_path config))).2 = true
    · rw [if_pos hwr]
      cases _print_statistics (scrape_sections env config clock
          (selected_sections config sf)
          { total_sections := (selected_sections config sf).length,
            successful_scrapes := 0, failed_scrapes := 0 } fs0).1 <;> rfl
    · rw [if_neg hwr]

lemma truthy_some_of_ne (name : String) (h : name ≠ "") : truthy (some name) = true := by
  unfold truthy
  cases he : name.isEmpty
  · simp [he]
  · exact absurd ((String.isEmpty_iff name).mp he) h

lemma selected_sections_unknown (config : Config) (name : String) (hname : name ≠ "")
    (h : ∀ s ∈ config.sections, s.name ≠ name) :
    selected_sections config (some name) = [] := by
  unfold selected_sections
  rw [if_pos (truthy_some_of_ne name hname), List.filter_eq_nil_iff]
  intro s hs
  simp [h s hs]

lemma scrape_all_unknown_section (env : Env) (config : Config) (clock : Clock)
    (fs0 : FS) (name : String) (hname : name ≠ "")
    (h : ∀ s ∈ config.sections, s.name ≠ name) :
    scrape_all env config clock fs0 (some name) =
      { status := .sectionNotFound,
        stats := { total_sections := 0, successful_scrapes := 0, failed_scrapes := 0 },
        fs := fs0, indexWritten := false } := by
  have hcond : (truthy (some name)
      && (selected_sections config (some name)).isEmpty) = true := by
    rw [truthy_some_of_ne name hname, selected_sections_unknown config name hname h]
    rfl
  unfold scrape_all
  rw [if_pos hcond]

lemma scrape_all_filtered_indexWritten (env : Env) (config : Config) (clock : Clock)
    (fs0 : FS) (sf : Option String) (ht : truthy sf = true) :
    (scrape_all env config clock fs0 sf).indexWritten = false := by
  unfold scrape_all
  by_cases hc : (truthy sf && (selected_sections config sf).isEmpty) = true
  · rw [if_pos hc]
  · rw [if_neg hc, if_pos ht]
    cases _print_statistics (scrape_sections env config clock (selected_sections config sf)
        { total_sections := (selected_sections config sf).length,
          successful_scrapes := 0, failed_scrapes := 0 } fs0).1 <;> rfl

lemma scrape_all_full_run (env : Env) (config : Config) (clock : Clock) (fs0 : FS)
    (sf : Option String) (ht : truthy sf = false)
    (hw : env.writeOutcome (index_path config) = .success) :
    (scrape_all env config clock fs0 sf).indexWritten = true
    ∧ (scrape_all env config clock fs0 sf).fs (index_path config)
      = some (create_index_content config clock) := by
  unfold scrape_all
  rw [if_neg (by simp [ht]), if_neg (by simp [ht]), hw]
  simp only [applyWrite]
  cases _print_statistics (scrape_sections env config clock (selected_sections config sf)
      { total_sections := (selected_sections config sf).length,
        successful_scrapes := 0, failed_scrapes := 0 } fs0).1 <;>
    simp [fsWrite]

lemma scrape_all_index_write_fails (env : Env) (config : Config) (clock : Clock)
    (fs0 : FS) (sf : Option String) (ht : truthy sf = false)
    (hw : env.writeOutcome (index_path config) ≠ .success) :
    (scrape_all env config clock fs0 sf).status = .indexWriteError
    ∧ (scrape_all env config clock fs0 sf).stats =
        (scrape_sections env config clock (selected_sections config sf)
          { total_sections := (selected_sections config sf).length,
            successful_scrapes := 0, failed_scrapes := 0 } fs0).1 := by
  unfold scrape_all
  rw [if_neg (by simp [ht]), if_neg (by simp [ht])]
  cases hwo : env.writeOutcome (index_path config) with
  | success => exact absurd hwo hw
  | openError => simp [applyWrite]
  | writeError k => simp [applyWrite]

/-! ## Claim theorems -/

/-- C1: after `scrape_all` finishes, `successful_scrapes +
failed_scrapes = total_sections`, and `total_sections` equals the
number of sections selected for the run — every processed section is
counted exactly once as success or failure. -/
theorem scrape_all_counts (env : Env) (config : Config) (clock : Clock) (fs0 : FS)
    (sf : Option String) :
    (scrape_all env config clock fs0 sf).stats.successful_scrapes
        + (scrape_all env config clock fs0 sf).stats.failed_scrapes
      = (scrape_all env config clock fs0 sf).stats.total_sections
    ∧ (scrape_all env config clock fs0 sf).stats.total_sections
      = (selected_sections config sf).length := by
  by_cases hc : (truthy sf && (selected_sections config sf).isEmpty) = true
  · have hemp : selected_sections config sf = [] := by
      simp only [Bool.and_eq_true] at hc
      exact List.isEmpty_iff.mp hc.2
    have hsa : scrape_all env config clock fs0 sf =
        { status := .sectionNotFound,
          stats := { total_sections := 0, successful_scrapes := 0, failed_scrapes := 0 },
          fs := fs0, indexWritten := false } := by
      unfold scrape_all
      rw [if_pos hc]
    rw [hsa, hemp]
    simp
  · rw [scrape_all_stats_eq env config clock fs0 sf hc]
    obtain ⟨h1, h2⟩ := scrape_sections_stats env config clock (selected_sections config sf)
      { total_sections := (selected_sections config sf).length,
        successful_scrapes := 0, failed_scrapes := 0 } fs0
    dsimp only at h1 h2
    constructor
    · omega
    · exact h2

/-- C3: a fetch whose underlying request fails on every attempt makes
exactly `retries + 1` attempts, sleeps the configured delay between
consecutive attempts and not after the last (the trace ends with an
attempt and contains exactly `retries` sleeps of the configured delay),
and returns `none` rather than raising. -/
theorem make_request_always_fails (oracle : Nat → Option String) (delay retries : Nat)
    (h : ∀ i, oracle i = none) :
    (make_request oracle delay retries).result = none
    ∧ ((make_request oracle delay retries).events.filter FetchEv.isAttempt).length
      = retries + 1
    ∧ (make_request oracle delay retries).events.filter FetchEv.isSleep
      = List.replicate retries (.sleep delay)
    ∧ (make_request oracle delay retries).events
      = failEvents delay 0 retries ++ [.attempt retries] := by
  rw [make_request_all_fail_eq oracle delay retries h]
  refine ⟨rfl, ?_, ?_, rfl⟩
  · simp [List.filter_append, failEvents_filter_isAttempt, FetchEv.isAttempt]
  · simp [List.filter_append, failEvents_filter_isSleep, FetchEv.isSleep]

/-- C3 witness: with delay 2 and retries 3, an always-failing fetch
makes 4 attempts, sleeps three times, and returns `none`. -/
theorem make_request_always_fails_witness :
    (make_request (fun _ => none) 2 3).result = none
    ∧ ((make_request (fun _ => none) 2 3).events.filter FetchEv.isAttempt).length = 3 + 1
    ∧ (make_request (fun _ => none) 2 3).events.filter FetchEv.isSleep
      = List.replicate 3 (.sleep 2)
    ∧ (make_request (fun _ => none) 2 3).events
      = failEvents 2 0 3 ++ [.attempt 3] :=
  make_request_always_fails (fun _ => none) 2 3 (fun _ => rfl)

/-- C4: extraction returns the first match of the first selector that
matches at least one element — earlier non-matching selectors never
cause failure — and signals `none` exactly when no selector matches
any element. -/
theorem extract_content_first_selector (select : String → List String)
    (pre post : List String) (sel : String)
    (hpre : ∀ t ∈ pre, select t = [])
    (hsel : select sel ≠ []) :
    _extract_content select (pre ++ sel :: post) = (select sel).head?
    ∧ (select sel).head? ≠ none
    ∧ (∀ sels, _extract_content select sels = none ↔ ∀ t ∈ sels, select t = []) := by
  have hhead : (select sel).head? ≠ none := by
    simpa [List.head?_eq_none_iff] using hsel
  refine ⟨?_, hhead, extract_content_none_iff select⟩
  rw [extract_content_skip select pre (sel :: post) hpre]
  cases hh : (select sel).head? with
  | none => exact absurd hh hhead
  | some x => simp [_extract_content, select_one, hh]

/-- C4 witness: with selectors `[".missing", ".real"]` where only
`.real` matches (twice), extraction returns the first `.real` match. -/
theorem extract_content_first_selector_witness :
    _extract_content (fun sel => if sel == ".real" then ["<main>Hi</main>", "<main>Bye</main>"] else [])
        ([".missing"] ++ ".real" :: [])
      = ((fun sel => if sel == ".real" then ["<main>Hi</main>", "<main>Bye</main>"] else []) ".real").head?
    ∧ ((fun sel => if sel == ".real" then ["<main>Hi</main>", "<main>Bye</main>"] else []) ".real").head? ≠ none
    ∧ (∀ sels, _extract_content (fun sel => if sel == ".real" then ["<main>Hi</main>", "<main>Bye</main>"] else []) sels = none
        ↔ ∀ t ∈ sels, (fun sel => if sel == ".real" then ["<main>Hi</main>", "<main>Bye</main>"] else []) t = []) :=
  extract_content_first_selector
    (fun sel => if sel == ".real" then ["<main>Hi</main>", "<main>Bye</main>"] else [])
    [".missing"] [] ".real" (by decide) (by decide)

/-- C2 counterexample: `"missing-name"` is not among the configured section
names, yet the run invoked with `--section missing-name` exits with
code 0, not 1 — `scrape_all` merely logs and returns, unlike a missing
configuration file. -/
theorem unknown_section_exits_zero :
    "missing-name" ∉ cfgW.sections.map DocSection.name
    ∧ main_run (.ok cfgW) envW clockW fs0W (some "missing-name") = 0 := by
  refine ⟨by decide, ?_⟩
  have h := scrape_all_unknown_section envW cfgW clockW fs0W "missing-name"
    (by decide) (by decide)
  show run_exit_code (scrape_all envW cfgW clockW fs0W (some "missing-name")) = 0
  rw [h]
  rfl

/-- C2 amended: an unknown `--section` name causes `scrape_all` to
return early — nothing processed, nothing written, statistics left at
zero — and the process exits 0; only a missing or unparseable
configuration file (and interrupts) exits 1. -/
theorem unknown_section_early_return (env : Env) (config : Config) (clock : Clock)
    (fs0 : FS) (name : String) (hname : name ≠ "")
    (h : ∀ s ∈ config.sections, s.name ≠ name) :
    (scrape_all env config clock fs0 (some name)).status = .sectionNotFound
    ∧ (scrape_all env config clock fs0 (some name)).stats =
        { total_sections := 0, successful_scrapes := 0, failed_scrapes := 0 }
    ∧ (scrape_all env config clock fs0 (some name)).fs = fs0
    ∧ (scrape_all env config clock fs0 (some name)).indexWritten = false
    ∧ main_run (.ok config) env clock fs0 (some name) = 0
    ∧ main_run .fileNotFound env clock fs0 (some name) = 1
    ∧ main_run .yamlError env clock fs0 (some name) = 1 := by
  have hrun := scrape_all_unknown_section env config clock fs0 name hname h
  refine ⟨by rw [hrun], by rw [hrun], by rw [hrun], by rw [hrun], ?_, rfl, rfl⟩
  show run_exit_code (scrape_all env config clock fs0 (some name)) = 0
  rw [hrun]
  rfl

/-- C2 amended witness: the concrete unknown-name run returns
`sectionNotFound` and exits 0; the missing-config run exits 1. -/
theorem unknown_section_early_return_witness :
    (scrape_all envW cfgW clockW fs0W (some "missing-name")).status = .sectionNotFound
    ∧ (scrape_all envW cfgW clockW fs0W (some "missing-name")).stats =
        { total_sections := 0, successful_scrapes := 0, failed_scrapes := 0 }
    ∧ (scrape_all envW cfgW clockW fs0W (some "missing-name")).fs = fs0W
    ∧ (scrape_all envW cfgW clockW fs0W (some "missing-name")).indexWritten = false
    ∧ main_run (.ok cfgW) envW clockW fs0W (some "missing-name") = 0
    ∧ main_run .fileNotFound envW clockW fs0W (some "missing-name") = 1
    ∧ main_run .yamlError envW clockW fs0W (some "missing-name") = 1 :=
  unknown_section_early_return envW cfgW clockW fs0W "missing-name"
    (by decide) (by decide)

/-- C5 (code bug): the annotations are applied in the claimed fixed
order and formats, but the timestamp is taken from the LOCAL clock
(`datetime.now()`) and merely labelled "UTC" by the format string: with
local time 12:00 and UTC 10:00, the appended line reads 12:00:00 UTC,
not the 10:00:00 UTC a UTC clock would give. -/
theorem convert_markdown_uses_local_clock :
    _convert_to_markdown (fun _ => "BODY\n") cfgW clockW "<main><h1>Hi</h1></main>" secW
      = "# Overview\n\nBODY\n\n\n---\n\n*Source: https://docs.example.com/overview*\n*Last updated: 2024-06-01 12:00:00 UTC*\n"
    ∧ strftime_ts clockW.now = "2024-06-01 12:00:00 UTC"
    ∧ strftime_ts clockW.utcnow = "2024-06-01 10:00:00 UTC"
    ∧ clockW.now ≠ clockW.utcnow := by
  refine ⟨?_, ?_, ?_, ?_⟩ <;> decide

/-- C6: assuming the filesystem accepts the index write, the index file
is written if and only if the run is full (falsy `--section` filter),
and then holds exactly the generated index document — title and
timestamp, one bullet `- **[{name}]({filename})** - {description}` per
configured section in order, usage note and footer. -/
theorem index_written_iff_full_run (env : Env) (config : Config) (clock : Clock)
    (fs0 : FS) (sf : Option String)
    (hw : env.writeOutcome (index_path config) = .success) :
    ((scrape_all env config clock fs0 sf).indexWritten = true ↔ truthy sf = false)
    ∧ ((scrape_all env config clock fs0 sf).indexWritten = true →
        (scrape_all env config clock fs0 sf).fs (index_path config)
          = some (create_index_content config clock)) := by
  cases ht : truthy sf with
  | true =>
    have h1 := scrape_all_filtered_indexWritten env config clock fs0 sf ht
    constructor
    · rw [h1]
      simp
    · intro h2
      rw [h1] at h2
      cases h2
  | false =>
    obtain ⟨h1, h2⟩ := scrape_all_full_run env config clock fs0 sf ht hw
    exact ⟨by simp [h1, ht], fun _ => h2⟩

/-- C6 witness: the concrete full run writes the index with the
generated content. -/
theorem index_written_iff_full_run_witness :
    (scrape_all envW cfgW clockW fs0W none).indexWritten = true
    ∧ (scrape_all envW cfgW clockW fs0W none).fs (index_path cfgW)
      = some (create_index_content cfgW clockW) := by
  have h := index_written_iff_full_run envW cfgW clockW fs0W none (by decide)
  have h1 : (scrape_all envW cfgW clockW fs0W none).indexWritten = true := h.1.mpr rfl
  exact ⟨h1, h.2 h1⟩

/-- C7 counterexample: in a full run over `cfgW` whose only write
failure is the index file, the one section succeeds
(`failed_scrapes = 0`), yet the run aborts with exit code 1 — the index
write failure is neither caught nor counted as a section failure. -/
theorem index_write_failure_aborts :
    (scrape_all envC7 cfgW clockW fs0W none).status = .indexWriteError
    ∧ run_exit_code (scrape_all envC7 cfgW clockW fs0W none) = 1
    ∧ (scrape_all envC7 cfgW clockW fs0W none).stats.successful_scrapes = 1
    ∧ (scrape_all envC7 cfgW clockW fs0W none).stats.failed_scrapes = 0 := by
  refine ⟨?_, ?_, ?_, ?_⟩ <;> decide

/-- C7 amended: a failed write of a SECTION file is caught at the
section boundary and counted as a failure of that section, and the run
continues; a failed write of the INDEX file is not caught — it aborts
`scrape_all` (exit code 1) and is not counted, leaving the statistics
exactly as the section loop produced them. -/
theorem write_failure_handling (env : Env) (config : Config) (clock : Clock) :
    (∀ (st : Stats) (fs : FS) (s : DocSection),
      env.writeOutcome (section_path config s) ≠ .success →
      sectionMarkdown env config clock s ≠ none →
      (scrape_section env config clock st fs s).1 = false
      ∧ (scrape_section env config clock st fs s).2.1.failed_scrapes
        = st.failed_scrapes + 1
      ∧ (scrape_section env config clock st fs s).2.1.successful_scrapes
        = st.successful_scrapes)
    ∧ (∀ fs0 : FS, env.writeOutcome (index_path config) ≠ .success →
      (scrape_all env config clock fs0 none).status = .indexWriteError
      ∧ run_exit_code (scrape_all env config clock fs0 none) = 1
      ∧ (scrape_all env config clock fs0 none).stats =
          (scrape_sections env config clock (selected_sections config none)
            { total_sections := (selected_sections config none).length,
              successful_scrapes := 0, failed_scrapes := 0 } fs0).1) := by
  constructor
  · intro st fs s hfail hsm
    rw [scrape_section_eq]
    cases hms : sectionMarkdown env config clock s with
    | none => exact absurd hms hsm
    | some m =>
      cases hwo : env.writeOutcome (section_path config s) with
      | success => exact absurd hwo hfail
      | openError => exact ⟨rfl, rfl, rfl⟩
      | writeError k => exact ⟨rfl, rfl, rfl⟩
  · intro fs0 hfail
    obtain ⟨h1, h2⟩ := scrape_all_index_write_fails env config clock fs0 none rfl hfail
    refine ⟨h1, ?_, h2⟩
    unfold run_exit_code
    rw [h1]

/-- C7 amended witness: with every write failing at `open`, the
concrete section write is counted as a failure without aborting, and
the concrete full run aborts on the index write with exit code 1. -/
theorem write_failure_handling_witness :
    (scrape_section envOpenFail cfgW clockW stW fs0W secW).1 = false
    ∧ (scrape_section envOpenFail cfgW clockW stW fs0W secW).2.1.failed_scrapes
      = stW.failed_scrapes + 1
    ∧ (scrape_section envOpenFail cfgW clockW stW fs0W secW).2.1.successful_scrapes
      = stW.successful_scrapes
    ∧ (scrape_all envOpenFail cfgW clockW fs0W none).status = .indexWriteError
    ∧ run_exit_code (scrape_all envOpenFail cfgW clockW fs0W none) = 1 := by
  have h := write_failure_handling envOpenFail cfgW clockW
  have ha := h.1 stW fs0W secW (by decide) (by decide)
  have hb := h.2 fs0W (by decide)
  exact ⟨ha.1, ha.2.1, ha.2.2, hb.1, hb.2.1⟩

/-- C8 counterexample: with a stale file `"OLD"` on disk and a write
that fails after 3 characters, the section is counted failed yet its
output path now holds the truncated prefix `"BOD"` — neither "no output
file" nor "prior filesystem state unchanged": the `open(..., "w")` +
`write` sequence is not all-or-nothing. -/
theorem failed_write_leaves_partial_file :
    (scrape_section envC8 cfgPlain clockW stW fsOld secW).1 = false
    ∧ (scrape_section envC8 cfgPlain clockW stW fsOld secW).2.2 "docs/overview.md"
      = some "BOD"
    ∧ fsOld "docs/overview.md" = some "OLD" := by
  refine ⟨?_, ?_, ?_⟩ <;> decide

/-- C8 amended: on success the full markdown is written (overwriting
the path); on failure the path either keeps its prior state (fetch,
extraction, conversion or `open` failed) or — when the failure struck
during the write — holds a truncated prefix of the intended markdown. -/
theorem scrape_section_write_behavior (env : Env) (config : Config) (clock : Clock)
    (st : Stats) (fs : FS) (s : DocSection) :
    ((scrape_section env config clock st fs s).1 = true →
      (scrape_section env config clock st fs s).2.2 (section_path config s)
        = sectionMarkdown env config clock s
      ∧ sectionMarkdown env config clock s ≠ none)
    ∧ ((scrape_section env config clock st fs s).1 = false →
      (scrape_section env config clock st fs s).2.2 (section_path config s)
        = fs (section_path config s)
      ∨ ∃ m k, sectionMarkdown env config clock s = some m
          ∧ env.writeOutcome (section_path config s) = .writeError k
          ∧ (scrape_section env config clock st fs s).2.2 (section_path config s)
            = some (m.take k)) := by
  rw [scrape_section_eq]
  cases hms : sectionMarkdown env config clock s with
  | none =>
    exact ⟨fun hcon => (by cases hcon), fun _ => Or.inl rfl⟩
  | some m =>
    cases hwo : env.writeOutcome (section_path config s) with
    | success =>
      refine ⟨fun _ => ⟨?_, (by simp)⟩, fun hcon => (by cases hcon)⟩
      simp [fsWrite]
    | openError =>
      exact ⟨fun hcon => (by cases hcon), fun _ => Or.inl rfl⟩
    | writeError k =>
      refine ⟨fun hcon => (by cases hcon), fun _ => Or.inr ⟨m, k, rfl, rfl, ?_⟩⟩
      simp [fsWrite]

/-- C8 amended witness: in the all-success run the output path holds
exactly the markdown of the section. -/
theorem scrape_section_write_behavior_witness :
    (scrape_section envW cfgPlain clockW stW fs0W secW).2.2 (section_path cfgPlain secW)
      = sectionMarkdown envW cfgPlain clockW secW
    ∧ sectionMarkdown envW cfgPlain clockW secW ≠ none :=
  (scrape_section_write_behavior envW cfgPlain clockW stW fs0W secW).1 (by decide)

/-- C9: two runs over the same environment and configuration produce,
per section, the same clock-independent body with only the timestamp
note appended differing; with the timestamp flag off the outputs are
byte-identical. -/
theorem two_runs_differ_only_in_timestamp (env : Env) (config : Config)
    (clock1 clock2 : Clock) (s : DocSection) :
    sectionMarkdown env config clock1 s
      = (sectionBody env config s).map (fun b => b ++ timestamp_note config clock1)
    ∧ sectionMarkdown env config clock2 s
      = (sectionBody env config s).map (fun b => b ++ timestamp_note config clock2)
    ∧ (config.output.add_timestamp = false →
        sectionMarkdown env config clock1 s = sectionMarkdown env config clock2 s) := by
  have key : ∀ clock : Clock, sectionMarkdown env config clock s
      = (sectionBody env config s).map (fun b => b ++ timestamp_note config clock) := by
    intro clock
    unfold sectionMarkdown sectionBody
    cases section_md_raw env config s with
    | none => rfl
    | some m => simp [annotate_eq_body_append]
  refine ⟨key clock1, key clock2, fun hts => ?_⟩
  rw [key clock1, key clock2]
  simp [timestamp_note, hts]

/-- C9 witness: with the timestamp flag off, the two concrete runs
produce identical markdown. -/
theorem two_runs_differ_only_in_timestamp_witness :
    sectionMarkdown envW cfgPlain clockW secW = sectionMarkdown envW cfgPlain clockW2 secW :=
  (two_runs_differ_only_in_timestamp envW cfgPlain clockW clockW2 secW).2.2 rfl

/-- C10: a full run over an empty section list reaches the statistics
block with `total_sections = 0`; the success-rate division is
unguarded, so the statistics computation fails (division by zero) and
the process exits 1 instead of reporting. -/
theorem empty_sections_division_by_zero (env : Env) (config : Config) (clock : Clock)
    (fs0 : FS) (hempty : config.sections = [])
    (hw : env.writeOutcome (index_path config) = .success) :
    (scrape_all env config clock fs0 none).stats.total_sections = 0
    ∧ _print_statistics (scrape_all env config clock fs0 none).stats = none
    ∧ (scrape_all env config clock fs0 none).status = .statsDivisionByZero
    ∧ run_exit_code (scrape_all env config clock fs0 none) = 1 := by
  have hsel : selected_sections config none = [] := by
    simp [selected_sections, truthy, hempty]
  have h1 : scrape_all env config clock fs0 none =
      { status := .statsDivisionByZero,
        stats := { total_sections := 0, successful_scrapes := 0, failed_scrapes := 0 },
        fs := fsWrite fs0 (index_path config) (create_index_content config clock),
        indexWritten := true } := by
    unfold scrape_all
    rw [hsel, hw]
    simp [scrape_sections, _print_statistics, applyWrite, truthy]
  rw [h1]
  exact ⟨rfl, rfl, rfl, rfl⟩

/-- C10 witness: the concrete empty-section full run fails its
statistics block and exits 1. -/
theorem empty_sections_division_by_zero_witness :
    (scrape_all envW cfgEmpty clockW fs0W none).stats.total_sections = 0
    ∧ _print_statistics (scrape_all envW cfgEmpty clockW fs0W none).stats = none
    ∧ (scrape_all envW cfgEmpty clockW fs0W none).status = .statsDivisionByZero
    ∧ run_exit_code (scrape_all envW cfgEmpty clockW fs0W none) = 1 :=
  empty_sections_division_by_zero envW cfgEmpty clockW fs0W rfl rfl

end ScrapeDocs
